import Mathlib

/-!
Verification development for the covergen-app job orchestration and
external-API adaptation layer.

The TypeScript sources are embedded shallowly:

* `src/lib/prompt-builder.ts` — `STYLE_PRESETS`, `buildCoverPrompt`,
  `getAspectRatio`.  The prompt is modelled as the ordered list of string
  segments the source appends one by one (`promptSegments`); joining the
  list and trimming yields the final prompt string (`buildCoverPrompt`).
* the critique module — `critiqueCoverConfig`.
* `src/lib/ai/google-imagen-client.ts` — the response-shape extractor
  `extractImagesFromResponse` and the multi-endpoint attempt loop
  (`googleRun` / `generateImagesWithGoogle`); HTTP outcomes are abstracted
  into the classification the source performs (`EndpointOutcome`).
* `src/lib/ai/gemini-image-client.ts` — the one-request-per-variation loop
  (`geminiRun` / `generateImagesWithGemini`) over an environment that gives
  each request its outcome.
* the job-route orchestrator — the per-image persistence loop
  (`persistLoop`), terminal status writes (`finalizeJob`), the restart
  acceptance check (`restartPrelude`), and the post-processing dimension
  resolution of `processGenerationJob` (`postProcessImage`).

JavaScript string truthiness (`if (x)` on an optional string field) is
modelled by `truthyStr`: the field is present and non-empty.
-/

namespace CoverGen

/-! ## Prompt builder: data model (src/lib/prompt-builder.ts) -/

structure StylePreset where
  id : String
  name : String
  description : String
  contrast : String
  density : String
  tone : String
  layoutRules : List String
deriving DecidableEq

def minimalPreset : StylePreset :=
  { id := "minimal"
    name := "Minimal / Apple-like"
    description := "Clean, spacious design with lots of whitespace"
    contrast := "low"
    density := "sparse"
    tone := "premium"
    layoutRules :=
      ["Single focal point",
       "Generous whitespace (40%+ of canvas)",
       "Subtle gradients or solid colors",
       "Minimal or no text",
       "One primary element"] }

def boldGradientPreset : StylePreset :=
  { id := "bold-gradient"
    name := "Bold Gradient"
    description := "Vibrant gradients with strong visual impact"
    contrast := "high"
    density := "balanced"
    tone := "energetic"
    layoutRules :=
      ["Bold gradient backgrounds",
       "High contrast elements",
       "Dynamic composition",
       "Vibrant color palette",
       "Modern, eye-catching design"] }

def neonGamingPreset : StylePreset :=
  { id := "neon-gaming"
    name := "Neon Gaming"
    description := "Futuristic neon aesthetics for gaming apps"
    contrast := "high"
    density := "dense"
    tone := "energetic"
    layoutRules :=
      ["Neon color accents",
       "Dark backgrounds",
       "Glowing effects",
       "Dynamic action elements",
       "Gaming aesthetic"] }

def corporateTrustPreset : StylePreset :=
  { id := "corporate-trust"
    name := "Corporate Trust"
    description := "Professional, trustworthy design for business apps"
    contrast := "medium"
    density := "balanced"
    tone := "professional"
    layoutRules :=
      ["Professional color palette",
       "Clean typography",
       "Structured layout",
       "Trust-building elements",
       "Corporate aesthetic"] }

def modernSaasPreset : StylePreset :=
  { id := "modern-saas"
    name := "Modern SaaS"
    description := "Contemporary SaaS product aesthetic"
    contrast := "medium"
    density := "balanced"
    tone := "professional"
    layoutRules :=
      ["Modern UI elements",
       "Soft shadows and depth",
       "Contemporary color schemes",
       "Product-focused composition",
       "SaaS aesthetic"] }

/-- The `STYLE_PRESETS` record, as a lookup by preset id. -/
def STYLE_PRESETS (id : String) : Option StylePreset :=
  if id = "minimal" then some minimalPreset
  else if id = "bold-gradient" then some boldGradientPreset
  else if id = "neon-gaming" then some neonGamingPreset
  else if id = "corporate-trust" then some corporateTrustPreset
  else if id = "modern-saas" then some modernSaasPreset
  else none

inductive TargetStore
  | appstore
  | playstore
  | both
deriving DecidableEq

inductive Goal
  | attention
  | clarity
  | trust
  | premium
  | playful
deriving DecidableEq

inductive AssetRole
  | reference_cover
  | app_screenshot
  | brand_logo
deriving DecidableEq

inductive AssetType
  | reference_cover
  | app_screenshot
  | brand_logo
  | other
deriving DecidableEq

structure SelectedAsset where
  assetId : String
  role : AssetRole
deriving DecidableEq

structure VariantChoice where
  id : String
  enabled : Bool
deriving DecidableEq

structure JobConfig where
  targetStore : TargetStore
  goal : Goal
  appCategory : String
  mainMessage : String
  stylePreset : String
  selectedAssets : List SelectedAsset
  variants : List VariantChoice
deriving DecidableEq

structure AssetInfo where
  id : String
  type : AssetType
  original_filename : String
deriving DecidableEq

/-! ## Prompt builder: buildCoverPrompt -/

/-- The fallback `STYLE_PRESETS[config.stylePreset] || STYLE_PRESETS.minimal`. -/
def usedPreset (c : JobConfig) : StylePreset :=
  (STYLE_PRESETS c.stylePreset).getD minimalPreset

/-- The `referenceCovers` filter of `buildCoverPrompt`: assets selected under
the reference-cover role whose declared type is also reference-cover. -/
def referenceCovers (c : JobConfig) (assets : List AssetInfo) : List AssetInfo :=
  assets.filter fun a =>
    decide ((∃ sa ∈ c.selectedAssets, sa.assetId = a.id ∧ sa.role = AssetRole.reference_cover)
      ∧ a.type = AssetType.reference_cover)

/-- The `screenshots` filter of `buildCoverPrompt`. -/
def screenshots (c : JobConfig) (assets : List AssetInfo) : List AssetInfo :=
  assets.filter fun a =>
    decide ((∃ sa ∈ c.selectedAssets, sa.assetId = a.id ∧ sa.role = AssetRole.app_screenshot)
      ∧ a.type = AssetType.app_screenshot)

/-- The `logos` filter of `buildCoverPrompt`. -/
def brandLogos (c : JobConfig) (assets : List AssetInfo) : List AssetInfo :=
  assets.filter fun a =>
    decide ((∃ sa ∈ c.selectedAssets, sa.assetId = a.id ∧ sa.role = AssetRole.brand_logo)
      ∧ a.type = AssetType.brand_logo)

def openingClause (cat : String) : String :=
  "Create a professional app store cover image for a " ++ (cat ++ " app. ")

def goalClause : Goal → String
  | Goal.attention => "Design should be eye-catching and grab immediate attention. "
  | Goal.clarity => "Design should clearly communicate the app's purpose and value. "
  | Goal.trust => "Design should convey professionalism and trustworthiness. "
  | Goal.premium => "Design should feel premium, sophisticated, and high-quality. "
  | Goal.playful => "Design should be fun, energetic, and engaging. "

def iosFormatClause : String :=
  "iOS App Store style: Square format (1024x1024px), minimal and elegant design with clean typography. "

def playFormatClause : String :=
  "Google Play Store style: Feature graphic format (1024x500px), vibrant and engaging design. "

def presetHeaderClause (p : StylePreset) : String :=
  p.name ++ (" style: " ++ (p.description ++ ". "))

def toneClause (p : StylePreset) : String :=
  "Tone: " ++ (p.tone ++ ". ")

def contrastClause (p : StylePreset) : String :=
  "Contrast level: " ++ (p.contrast ++ ". ")

def densityClause (p : StylePreset) : String :=
  "Visual density: " ++ (p.density ++ ". ")

def layoutClause (p : StylePreset) : String :=
  "Layout guidelines: " ++ (String.intercalate ", " p.layoutRules ++ ". ")

def referenceStyleClause : String :=
  "Use similar style, color palette, and aesthetic approach as the provided reference covers. "

def screenshotsIntroClause : String :=
  "Incorporate visual elements, UI components, and color scheme from the provided app screenshots. "

def showOneClause : String := "Show one screenshot prominently. "

def showTwoClause : String := "Show two screenshots in a balanced composition. "

def showManyClause (n : Nat) : String :=
  "Show " ++ (toString n ++ " screenshots in an organized collage layout. ")

def brandLogoClause : String :=
  "Include brand identity and colors from the provided brand logos. "

def mainMessageClause (m : String) : String :=
  "The cover should communicate: \"" ++ (m ++ "\". ")

def qualityClause : String :=
  "High quality, professional design. Ensure mobile readability, proper contrast, single focal point, and safe margins. "

def noTextClause : String :=
  "No text overlays unless specifically requested. Clean background. "

def productionClause : String :=
  "The final image should be production-ready for app store submission. "

def storeSegs (t : TargetStore) : List String :=
  (if t = TargetStore.appstore ∨ t = TargetStore.both then [iosFormatClause] else [])
    ++ (if t = TargetStore.playstore ∨ t = TargetStore.both then [playFormatClause] else [])

def presetSegs (p : StylePreset) : List String :=
  [presetHeaderClause p, toneClause p, contrastClause p, densityClause p]
    ++ (if 0 < p.layoutRules.length then [layoutClause p] else [])

def refSegs (refs : List AssetInfo) : List String :=
  if 0 < refs.length then [referenceStyleClause] else []

def shotSegs (shots : List AssetInfo) : List String :=
  if 0 < shots.length then
    screenshotsIntroClause ::
      (if shots.length = 1 then [showOneClause]
       else if shots.length = 2 then [showTwoClause]
       else [showManyClause shots.length])
  else []

def logoSegs (logos : List AssetInfo) : List String :=
  if 0 < logos.length then [brandLogoClause] else []

def msgSegs (m : String) : List String :=
  if m ≠ "" then [mainMessageClause m] else []

def closingSegs : List String := [qualityClause, noTextClause, productionClause]

/-- The ordered segments `buildCoverPrompt` appends to `prompt`. -/
def promptSegments (c : JobConfig) (assets : List AssetInfo) : List String :=
  [openingClause c.appCategory, goalClause c.goal]
    ++ storeSegs c.targetStore
    ++ presetSegs (usedPreset c)
    ++ refSegs (referenceCovers c assets)
    ++ shotSegs (screenshots c assets)
    ++ logoSegs (brandLogos c assets)
    ++ msgSegs c.mainMessage
    ++ closingSegs

/-- `buildCoverPrompt`: the concatenation of the segments, trimmed. -/
def buildCoverPrompt (c : JobConfig) (assets : List AssetInfo) : String :=
  (String.join (promptSegments c assets)).trim

structure AspectSpec where
  width : Nat
  height : Nat
  ratio : String
deriving DecidableEq

/-- The aspect-ratio lookup of the prompt builder. -/
def getAspectRatio : TargetStore → AspectSpec
  | TargetStore.appstore => { width := 1024, height := 1024, ratio := "1:1" }
  | TargetStore.playstore => { width := 1024, height := 500, ratio := "1024:500" }
  | TargetStore.both => { width := 1024, height := 1024, ratio := "1:1" }

/-- The first five characters of a prompt segment: enough to tell every
segment family apart. -/
def key5 (s : String) : List Char := s.data.take 5

/-- The `key5` values the style-preset clause block can take, over the five
known presets. -/
def presetKeys : List (List Char) :=
  [['M', 'i', 'n', 'i', 'm'], ['B', 'o', 'l', 'd', ' '], ['N', 'e', 'o', 'n', ' '],
   ['C', 'o', 'r', 'p', 'o'], ['M', 'o', 'd', 'e', 'r'], ['T', 'o', 'n', 'e', ':'],
   ['C', 'o', 'n', 't', 'r'], ['V', 'i', 's', 'u', 'a'], ['L', 'a', 'y', 'o', 'u']]

/-! ## Configuration critique (critiqueCoverConfig) -/

structure AssetCounts where
  referenceCovers : Nat
  screenshots : Nat
  logos : Nat
deriving DecidableEq

structure CritiqueIssue where
  severity : String
  category : String
  message : String
  suggestion : String
deriving DecidableEq

structure CritiqueResult where
  score : Int
  issues : List CritiqueIssue
  summary : String
deriving DecidableEq

/-- JavaScript `String.prototype.trim`, on the character list. -/
def trimString (s : String) : String :=
  String.mk (((s.data.dropWhile Char.isWhitespace).reverse.dropWhile Char.isWhitespace).reverse)

/-- The main-message-too-short rule condition:
`!config.mainMessage || config.mainMessage.trim().length < 5`. -/
def msgShortCond (c : JobConfig) : Prop :=
  c.mainMessage = "" ∨ (trimString c.mainMessage).length < 5

/-- The main-message-too-long rule condition:
`config.mainMessage && config.mainMessage.length > 50`. -/
def msgLongCond (c : JobConfig) : Prop :=
  c.mainMessage ≠ "" ∧ 50 < c.mainMessage.length

instance (c : JobConfig) : Decidable (msgShortCond c) := by
  unfold msgShortCond; infer_instance

instance (c : JobConfig) : Decidable (msgLongCond c) := by
  unfold msgLongCond; infer_instance

def enabledVariants (c : JobConfig) : List VariantChoice :=
  c.variants.filter fun v => v.enabled

/-- The sequential `score -= penalty` chain of `critiqueCoverConfig`: one
`if` per rule, in source order, starting from 100. -/
def critiqueScoreRaw (c : JobConfig) (k : AssetCounts) : Int :=
  let score0 : Int := 100
  let score1 := if k.referenceCovers = 0 then score0 - 20 else score0
  let score2 := if k.screenshots < 2 then score1 - 10 else score1
  let score3 := if (enabledVariants c).length = 0 then score2 - 30 else score2
  let score4 := if 4 < (enabledVariants c).length then score3 - 5 else score3
  let score5 := if msgShortCond c then score4 - 10 else score4
  let score6 := if msgLongCond c then score5 - 5 else score5
  let score7 :=
    if c.goal = Goal.premium ∧ c.stylePreset = "neon-gaming" then score6 - 10 else score6
  let score8 :=
    if c.goal = Goal.playful ∧ c.stylePreset = "corporate-trust" then score7 - 10 else score7
  let score9 := if 5 < k.screenshots then score8 - 5 else score8
  score9

/-- The sequential `issues.push(...)` chain of `critiqueCoverConfig`, in
source order (the target-store rule pushes an issue but takes no score). -/
def critiqueIssuesList (c : JobConfig) (k : AssetCounts) : List CritiqueIssue :=
  let issues0 : List CritiqueIssue := []
  let issues1 := issues0 ++
    (if k.referenceCovers = 0 then
      [{ severity := "error", category := "assets",
         message := "No reference covers selected",
         suggestion := "Add at least one reference cover for style inspiration" }]
     else [])
  let issues2 := issues1 ++
    (if k.screenshots < 2 then
      [{ severity := "warning", category := "assets",
         message := "Only " ++ (toString k.screenshots ++ " screenshot(s) selected"),
         suggestion := "Consider adding 2-3 screenshots for better content representation" }]
     else [])
  let issues3 := issues2 ++
    (if (enabledVariants c).length = 0 then
      [{ severity := "error", category := "layout",
         message := "No variants enabled",
         suggestion := "Enable at least one variant to generate covers" }]
     else [])
  let issues4 := issues3 ++
    (if 4 < (enabledVariants c).length then
      [{ severity := "warning", category := "layout",
         message := toString (enabledVariants c).length ++ " variants enabled",
         suggestion := "Consider generating 2-4 variants for better focus" }]
     else [])
  let issues5 := issues4 ++
    (if msgShortCond c then
      [{ severity := "warning", category := "content",
         message := "Main message is too short or missing",
         suggestion := "Add a clear value proposition (5-15 words)" }]
     else [])
  let issues6 := issues5 ++
    (if msgLongCond c then
      [{ severity := "info", category := "content",
         message := "Main message is quite long",
         suggestion := "Keep value propositions concise for better readability" }]
     else [])
  let issues7 := issues6 ++
    (if c.goal = Goal.premium ∧ c.stylePreset = "neon-gaming" then
      [{ severity := "warning", category := "style",
         message := "Style mismatch: Premium goal with gaming style",
         suggestion := "Consider 'Minimal' or 'Modern SaaS' style for premium feel" }]
     else [])
  let issues8 := issues7 ++
    (if c.goal = Goal.playful ∧ c.stylePreset = "corporate-trust" then
      [{ severity := "warning", category := "style",
         message := "Style mismatch: Playful goal with corporate style",
         suggestion := "Consider 'Bold Gradient' or 'Neon Gaming' style for playful feel" }]
     else [])
  let issues9 := issues8 ++
    (if 5 < k.screenshots then
      [{ severity := "info", category := "layout",
         message := "Many screenshots selected",
         suggestion := "Too many screenshots may create clutter. Consider 2-4 for best results" }]
     else [])
  let issuesA := issues9 ++
    (if c.targetStore = TargetStore.both then
      [{ severity := "info", category := "technical",
         message := "Generating for both stores",
         suggestion := "Consider generating separate covers for each store for optimal results" }]
     else [])
  issuesA

/-- `critiqueCoverConfig`: rule evaluation in source order (issues pushed
and score reduced inside each rule's `if`), the summary chosen by the raw
score band with error/warning counts appended, and the returned score
floored at 0. -/
def critiqueCoverConfig (c : JobConfig) (k : AssetCounts) : CritiqueResult :=
  let score9 := critiqueScoreRaw c k
  let issuesA := critiqueIssuesList c k
  let errorCount := issuesA.countP fun i => i.severity = "error"
  let warningCount := issuesA.countP fun i => i.severity = "warning"
  let summary0 :=
    if 90 ≤ score9 then "Excellent configuration! Ready to generate high-quality covers."
    else if 70 ≤ score9 then "Good configuration with minor improvements suggested."
    else if 50 ≤ score9 then "Configuration needs attention. Review warnings before generating."
    else "Configuration has critical issues. Please fix errors before generating."
  let summary1 :=
    summary0 ++ (if 0 < errorCount then " " ++ (toString errorCount ++ " error(s) must be fixed.") else "")
  let summary2 :=
    summary1 ++ (if 0 < warningCount then " " ++ (toString warningCount ++ " warning(s) to consider.") else "")
  { score := max 0 score9, issues := issuesA, summary := summary2 }

/-- The penalty of each scored critique rule, in evaluation order. -/
def critiquePenalties : List Nat := [20, 10, 30, 5, 10, 5, 10, 10, 5]

/-- Which scored critique rule fires, in evaluation order. -/
def critiqueFires (c : JobConfig) (k : AssetCounts) : List Bool :=
  [decide (k.referenceCovers = 0),
   decide (k.screenshots < 2),
   decide ((enabledVariants c).length = 0),
   decide (4 < (enabledVariants c).length),
   decide (msgShortCond c),
   decide (msgLongCond c),
   decide (c.goal = Goal.premium ∧ c.stylePreset = "neon-gaming"),
   decide (c.goal = Goal.playful ∧ c.stylePreset = "corporate-trust"),
   decide (5 < k.screenshots)]

/-- Total penalty: the sum over the rules that fire, each counted once. -/
def totalPenalty (c : JobConfig) (k : AssetCounts) : Int :=
  ((List.zipWith (fun b p => if b then p else 0) (critiqueFires c k) critiquePenalties).sum : Nat)

/-! ## Google Imagen client: response shapes (src/lib/ai/google-imagen-client.ts) -/

/-- JavaScript truthiness of an optional string field. -/
def truthyStr : Option String → Bool
  | some s => !s.data.isEmpty
  | none => false

def dataUrlPng (b : String) : String := "data:image/png;base64," ++ b

structure GenImageItem where
  imageUri : Option String := none
  base64 : Option String := none
  url : Option String := none
  bytesBase64Encoded : Option String := none
deriving DecidableEq

structure PredictionItem where
  bytesBase64Encoded : Option String := none
  imageUri : Option String := none
  base64 : Option String := none
deriving DecidableEq

structure InlinePayload where
  mimeType : Option String := none
  data : String := ""
deriving DecidableEq

structure ContentPart where
  inlineData : Option InlinePayload := none
deriving DecidableEq

structure CandidateContent where
  parts : Option (List ContentPart) := none
deriving DecidableEq

structure CandidateItem where
  content : Option CandidateContent := none
deriving DecidableEq

structure ProviderResponse where
  generatedImages : Option (List GenImageItem) := none
  predictions : Option (List PredictionItem) := none
  imageUri : Option String := none
  url : Option String := none
  base64 : Option String := none
  candidates : Option (List CandidateItem) := none
deriving DecidableEq

/-- The if/else-if chain over one `generatedImages` element. -/
def genImageValue (img : GenImageItem) : Option String :=
  if truthyStr img.imageUri then img.imageUri
  else if truthyStr img.base64 then img.base64.map dataUrlPng
  else if truthyStr img.url then img.url
  else if truthyStr img.bytesBase64Encoded then img.bytesBase64Encoded.map dataUrlPng
  else none

/-- The if/else-if chain over one `predictions` element. -/
def predictionValue (p : PredictionItem) : Option String :=
  if truthyStr p.bytesBase64Encoded then p.bytesBase64Encoded.map dataUrlPng
  else if truthyStr p.imageUri then p.imageUri
  else if truthyStr p.base64 then p.base64.map dataUrlPng
  else none

/-- One part of a `candidates[].content.parts` block, recognized when its
inline data carries an image mime type (`mimeType?.startsWith("image/")`). -/
def googlePartValue (p : ContentPart) : Option String :=
  match p.inlineData with
  | some idt =>
    match idt.mimeType with
    | some mt =>
      if ("image/").data.isPrefixOf mt.data then
        some ("data:" ++ (mt ++ (";base64," ++ idt.data)))
      else none
    | none => none
  | none => none

/-- The push of a truthy top-level plain string field (`imageUri`, `url`). -/
def topLevelPush (o : Option String) : List String :=
  match o with
  | some u => if u.data.isEmpty then [] else [u]
  | none => []

/-- The push of a truthy top-level `base64` field, wrapped in a data URL. -/
def topLevelBase64Push (o : Option String) : List String :=
  match o with
  | some b => if b.data.isEmpty then [] else [dataUrlPng b]
  | none => []

/-- The loop body `if (...) images.push(...)`: push the recognized value of
one item, if any, onto the accumulator. -/
def pushSome {α β : Type} (f : α → Option β) (acc : List β) (x : α) : List β :=
  match f x with
  | some b => acc ++ [b]
  | none => acc

/-- The nested loop body over one candidate's content parts. -/
def pushCandidate {β : Type} (g : ContentPart → Option β) (acc : List β)
    (cand : CandidateItem) : List β :=
  match cand.content with
  | some ct =>
    match ct.parts with
    | some ps => ps.foldl (pushSome g) acc
    | none => acc
  | none => acc

/-- `extractImagesFromResponse`: the four sequential format blocks, each
pushing its recognized images onto the shared `images` array. -/
def extractImagesFromResponse (d : ProviderResponse) : List String :=
  let images : List String := []
  let images :=
    match d.generatedImages with
    | some arr => arr.foldl (pushSome genImageValue) images
    | none => images
  let images :=
    match d.predictions with
    | some arr => arr.foldl (pushSome predictionValue) images
    | none => images
  let images := images ++ topLevelPush d.imageUri
  let images := images ++ topLevelPush d.url
  let images := images ++ topLevelBase64Push d.base64
  let images :=
    match d.candidates with
    | some cs => cs.foldl (pushCandidate googlePartValue) images
    | none => images
  images

/-- Shape-wise reading of the extractor (the characterization the claims
compare against): one image per recognized `generatedImages` element. -/
def extractGeneratedSpec (d : ProviderResponse) : List String :=
  (d.generatedImages.getD []).filterMap genImageValue

/-- Shape-wise reading: one image per recognized `predictions` element. -/
def extractPredictionsSpec (d : ProviderResponse) : List String :=
  (d.predictions.getD []).filterMap predictionValue

/-- Shape-wise reading: the top-level direct image fields, in source order. -/
def extractTopLevelSpec (d : ProviderResponse) : List String :=
  topLevelPush d.imageUri ++ (topLevelPush d.url ++ topLevelBase64Push d.base64)

/-- The parts of one candidate (`candidate.content?.parts`, defaulting empty). -/
def candidateParts (cand : CandidateItem) : List ContentPart :=
  match cand.content with
  | some ct => ct.parts.getD []
  | none => []

/-- Shape-wise reading: one image per inline image part of each candidate. -/
def extractCandidatesSpec (d : ProviderResponse) : List String :=
  (d.candidates.getD []).flatMap fun cand => (candidateParts cand).filterMap googlePartValue

/-! ## Google Imagen client: the multi-endpoint attempt loop -/

/-- The classification `generateImagesWithGoogle` performs on one endpoint
attempt, with the error message the source would build for it. -/
inductive EndpointOutcome
  | httpError (msg : String)
  | nonJsonBody (msg : String)
  | parseFailure (msg : String)
  | fetchThrow (msg : String)
  | parsed (d : ProviderResponse)

/-- The endpoint `for` loop: walks the attempt outcomes carrying `lastError`,
returning the first non-empty image extraction, or the final `lastError`. -/
def googleRun : List EndpointOutcome → Option String → Option (List String) × Option String
  | [], le => (none, le)
  | EndpointOutcome.httpError m :: rest, _ => googleRun rest (some m)
  | EndpointOutcome.nonJsonBody m :: rest, _ => googleRun rest (some m)
  | EndpointOutcome.parseFailure m :: rest, _ => googleRun rest (some m)
  | EndpointOutcome.fetchThrow m :: rest, _ => googleRun rest (some m)
  | EndpointOutcome.parsed d :: rest, le =>
    let images := extractImagesFromResponse d
    if 0 < images.length then (some images, le) else googleRun rest le

/-- The terminal error thrown after every endpoint failed. -/
def googleTerminalMsg (n : Nat) (le : Option String) : String :=
  "Failed to generate images with Google Imagen API. Tried "
    ++ (toString n
    ++ (" endpoint(s). Last error: "
    ++ ((match le with | some m => m | none => "Unknown error")
    ++ ". Please verify your API key and check GOOGLE_SETUP.md for configuration help.")))

/-- `generateImagesWithGoogle` over the list of attempt outcomes. -/
def generateImagesWithGoogle (outcomes : List EndpointOutcome) : Except String (List String) :=
  match googleRun outcomes none with
  | (some imgs, _) => Except.ok imgs
  | (none, le) => Except.error (googleTerminalMsg outcomes.length le)

/-! ## Gemini client: one request per variation (src/lib/ai/gemini-image-client.ts) -/

structure GeneratedImage where
  data : String
  mimeType : String
deriving DecidableEq

/-- One part of a Gemini response, recognized when `part.inlineData` is
present and its mime type starts with `image/`. -/
def geminiPartValue (p : ContentPart) : Option GeneratedImage :=
  match p.inlineData with
  | some idt =>
    match idt.mimeType with
    | some mt =>
      if ("image/").data.isPrefixOf mt.data then some { data := idt.data, mimeType := mt }
      else none
    | none => none
  | none => none

/-- The nested candidates/parts extraction loop of one Gemini response. -/
def extractGeminiImages (cands : List CandidateItem) : List GeneratedImage :=
  cands.foldl (pushCandidate geminiPartValue) []

/-- The images one Gemini response contributes (`data.candidates` guarded). -/
def geminiResponseImages : Option (List CandidateItem) → List GeneratedImage
  | some cs => extractGeminiImages cs
  | none => []

/-- The outcome of one per-variation Gemini request: a thrown error (HTTP
failure, non-JSON body, parse failure) with the message the source builds,
or a parsed response's candidates array. -/
inductive GeminiAttempt
  | fail (msg : String)
  | ok (candidates : Option (List CandidateItem))

def geminiModelId : String := "gemini-2.5-flash-image"

/-- The error rethrown when the first variation's request fails. -/
def geminiFirstFailMsg (m : String) : String :=
  "Failed to generate images with Gemini API (model: " ++ (geminiModelId ++ ("): " ++ m))

/-- The terminal error when no variation produced any image. -/
def geminiNoImagesMsg : String :=
  "Gemini API did not return any images. Model: "
    ++ (geminiModelId
    ++ ". This may mean the model doesn't support image generation or the prompt needs adjustment.")

/-- The per-variation `for` loop of `generateImagesWithGemini`: `n` requests
left, `i` the current variation index, `acc` the images collected so far.
Also counts the requests issued.  A failure at index 0 is rethrown; a
failure at a later index is swallowed and the loop continues. -/
def geminiRun (env : Nat → GeminiAttempt) : Nat → Nat → List GeneratedImage →
    Except String (List GeneratedImage) × Nat
  | 0, _, acc => (if acc.isEmpty then Except.error geminiNoImagesMsg else Except.ok acc, 0)
  | n + 1, i, acc =>
    match env i with
    | GeminiAttempt.fail m =>
      if i = 0 then (Except.error (geminiFirstFailMsg m), 1)
      else
        let r := geminiRun env n (i + 1) acc
        (r.1, r.2 + 1)
    | GeminiAttempt.ok cands =>
      let r := geminiRun env n (i + 1) (acc ++ geminiResponseImages cands)
      (r.1, r.2 + 1)

/-- `generateImagesWithGemini`: result and number of requests issued. -/
def generateImagesWithGemini (env : Nat → GeminiAttempt) (numVariations : Nat) :
    Except String (List GeneratedImage) × Nat :=
  geminiRun env numVariations 0 []

/-! ## Job orchestrator (generation route POST and processGenerationJob) -/

structure JobRow where
  status : String
  started_at : Option Nat := none
  finished_at : Option Nat := none
  error_message : Option String := none
  error_code : Option String := none
deriving DecidableEq

structure OutputRow where
  variantIndex : Nat
  label : String
  mimeType : String
deriving DecidableEq

/-- The persistence collaborators: the outcome of the blob upload and of the
Output-row insert for the variant at each index (`none` = success). -/
structure PersistEnv where
  uploadErr : Nat → Option String
  insertErr : Nat → Option String

def uploadFailMsg (i : Nat) (m : String) : String :=
  "Failed to upload output " ++ (toString (i + 1) ++ (": " ++ m))

def insertFailMsg (i : Nat) (m : String) : String :=
  "Failed to save output " ++ (toString (i + 1) ++ (": " ++ m))

/-- The per-image persistence loop of the generation route: for each
generated image, upload then insert; the first failure throws, aborting the
rest of the loop, while the rows already inserted remain.  Returns the rows
inserted, the thrown error if any, and the number of variants entered. -/
def persistLoop (env : PersistEnv) : List GeneratedImage → Nat →
    List OutputRow × Option String × Nat
  | [], _ => ([], none, 0)
  | _ :: rest, i =>
    match env.uploadErr i with
    | some m => ([], some (uploadFailMsg i m), 1)
    | none =>
      match env.insertErr i with
      | some m => ([], some (insertFailMsg i m), 1)
      | none =>
        let r := persistLoop env rest (i + 1)
        ({ variantIndex := i, label := "Variant " ++ toString (i + 1),
           mimeType := "image/png" } :: r.1, r.2.1, r.2.2 + 1)

/-- The terminal job-row update: `succeeded` on a clean run, otherwise
`failed` with the caught message and the fixed error code. -/
def finalizeJob (job : JobRow) (now : Nat) : Option String → JobRow
  | none => { job with status := "succeeded", finished_at := some now }
  | some m =>
    { job with status := "failed", finished_at := some now,
               error_message := some m, error_code := some "GENERATION_ERROR" }

/-- The route's generation phase after the job is `running`: call the Gemini
adapter, then run the persistence loop and finalize the job. -/
def runGenerationJob (env : Nat → GeminiAttempt) (penv : PersistEnv) (job : JobRow)
    (numVariations : Nat) (now : Nat) : JobRow × List OutputRow :=
  match (generateImagesWithGemini env numVariations).1 with
  | Except.error m => (finalizeJob job now (some m), [])
  | Except.ok imgs =>
    let r := persistLoop penv imgs 0
    (finalizeJob job now r.2.1, r.1)

/-- The restart (regenerate) route's pre-processing: reject statuses other
than queued/failed/cancelled; reset a cancelled job (clearing its error
fields); then flip the job to running with a start timestamp. -/
def restartPrelude (job : JobRow) (now : Nat) : Option JobRow :=
  if job.status ≠ "queued" ∧ job.status ≠ "failed" ∧ job.status ≠ "cancelled" then none
  else
    let j1 :=
      if job.status = "cancelled" then
        { job with status := "queued", error_message := none, finished_at := none }
      else job
    some { j1 with status := "running", started_at := some now }

/-! ## Image post-processing of processGenerationJob (generate-covers.ts) -/

structure ImageMeta where
  width : Option Nat := none
  height : Option Nat := none
deriving DecidableEq

structure ProcessedImage where
  width : Nat
  height : Nat
  mimeType : String
deriving DecidableEq

/-- The dimension resolution and PNG conversion of `processGenerationJob`:
`ios` → 1024x1024 cover-fit, `android` → 1024x500 cover-fit, anything else
keeps the source image's metadata dimensions (1024 when absent) and still
converts to PNG. -/
def postProcessImage (targetStore : String) (meta : ImageMeta) : ProcessedImage :=
  if targetStore = "ios" then { width := 1024, height := 1024, mimeType := "image/png" }
  else if targetStore = "android" then { width := 1024, height := 500, mimeType := "image/png" }
  else { width := meta.width.getD 1024, height := meta.height.getD 1024, mimeType := "image/png" }

/-! ## Concrete example inputs used by witnesses and counterexamples -/

/-- A parseable JSON 2xx response carrying none of the recognized shapes. -/
def emptyProviderResponse : ProviderResponse := {}

def imagePartA : ContentPart :=
  { inlineData := some { mimeType := some "image/png", data := "AAA" } }

def imagePartB : ContentPart :=
  { inlineData := some { mimeType := some "image/png", data := "BBB" } }

/-- One Gemini candidate whose content carries two inline image parts. -/
def twoImageCandidate : CandidateItem :=
  { content := some { parts := some [imagePartA, imagePartB] } }

/-- One Gemini candidate whose content carries one inline image part. -/
def oneImageCandidate : CandidateItem :=
  { content := some { parts := some [imagePartA] } }

/-- Every request returns one response holding two inline images. -/
def envTwoPerResponse : Nat → GeminiAttempt :=
  fun _ => GeminiAttempt.ok (some [twoImageCandidate])

/-- Request 0 yields one image; every later request fails. -/
def envOneThenFail : Nat → GeminiAttempt :=
  fun i => if i = 0 then GeminiAttempt.ok (some [oneImageCandidate]) else
    GeminiAttempt.fail "HTTP 500: internal error"

/-- Uploads and inserts always succeed. -/
def penvAllOk : PersistEnv :=
  { uploadErr := fun _ => none, insertErr := fun _ => none }

/-- The blob upload fails for the variant at index 1 only. -/
def penvUploadFailAt1 : PersistEnv :=
  { uploadErr := fun i => if i = 1 then some "storage quota exceeded" else none,
    insertErr := fun _ => none }

def threeImages : List GeneratedImage :=
  [{ data := "AAA", mimeType := "image/png" },
   { data := "BBB", mimeType := "image/png" },
   { data := "CCC", mimeType := "image/png" }]

def runningJob : JobRow := { status := "running", started_at := some 0 }

/-- A job that previously failed, with its error fields still set. -/
def failedJobCex : JobRow :=
  { status := "failed", started_at := some 1, finished_at := some 5,
    error_message := some "boom", error_code := some "GENERATION_ERROR" }

/-- A concrete wizard configuration exercising every prompt branch. -/
def cfgW : JobConfig :=
  { targetStore := TargetStore.both
    goal := Goal.premium
    appCategory := "finance"
    mainMessage := "Save money every day"
    stylePreset := "neon-gaming"
    selectedAssets :=
      [{ assetId := "a1", role := AssetRole.reference_cover },
       { assetId := "a2", role := AssetRole.app_screenshot }]
    variants := [{ id := "v1", enabled := true }] }

def assetsW : List AssetInfo :=
  [{ id := "a1", type := AssetType.reference_cover, original_filename := "r.png" },
   { id := "a2", type := AssetType.app_screenshot, original_filename := "s.png" }]

/-- A configuration whose style-preset id is not one of the known five. -/
def cfgUnknownPreset : JobConfig :=
  { cfgW with stylePreset := "retro-wave" }

def countsW : AssetCounts := { referenceCovers := 0, screenshots := 1, logos := 0 }

/-! ## Helper lemmas -/

lemma truthyStr_ne_none {o : Option String} (h : truthyStr o = true) : o ≠ none := by
  cases o <;> simp [truthyStr] at h ⊢

lemma foldl_push_filterMap {α β : Type} (f : α → Option β) (l : List α) (init : List β) :
    l.foldl (pushSome f) init = init ++ l.filterMap f := by
  induction l generalizing init with
  | nil => simp
  | cons x xs ih =>
    simp only [List.foldl_cons, List.filterMap_cons, pushSome]
    cases h : f x <;> simp [h, ih, List.append_assoc]

lemma cand_foldl_flatMap {β : Type} (g : ContentPart → Option β)
    (cs : List CandidateItem) (init : List β) :
    cs.foldl (pushCandidate g) init
      = init ++ cs.flatMap (fun cand => (candidateParts cand).filterMap g) := by
  induction cs generalizing init with
  | nil => simp
  | cons c cs ih =>
    simp only [List.foldl_cons, List.flatMap_cons]
    rw [ih]
    unfold pushCandidate candidateParts
    cases hc : c.content with
    | none => simp
    | some ct =>
      cases hp : ct.parts with
      | none => simp [hp]
      | some ps => simp [hp, foldl_push_filterMap g, List.append_assoc]

/-! ## C4 — response-shape extraction -/

/-- C4: for every JSON response body, `extractImagesFromResponse` checks the
four response shapes independently and cumulatively — `generatedImages`,
`predictions`, the top-level direct image fields, and `candidates` content
parts — returning one image per recognized item, in item order within and
across shapes, and no image for an item carrying none of the recognized
fields. -/
theorem extract_images_shape_cumulative (d : ProviderResponse) :
    extractImagesFromResponse d
      = extractGeneratedSpec d
        ++ (extractPredictionsSpec d ++ (extractTopLevelSpec d ++ extractCandidatesSpec d))
    ∧ (∀ img : GenImageItem, genImageValue img = none ↔
        (truthyStr img.imageUri = false ∧ truthyStr img.base64 = false
          ∧ truthyStr img.url = false ∧ truthyStr img.bytesBase64Encoded = false))
    ∧ (∀ p : PredictionItem, predictionValue p = none ↔
        (truthyStr p.bytesBase64Encoded = false ∧ truthyStr p.imageUri = false
          ∧ truthyStr p.base64 = false))
    ∧ (∀ p : ContentPart, googlePartValue p = none ↔
        (∀ idt, p.inlineData = some idt → ∀ mt, idt.mimeType = some mt →
          ("image/").data.isPrefixOf mt.data = false)) := by
  refine ⟨?_, ?_, ?_, ?_⟩
  · unfold extractImagesFromResponse extractGeneratedSpec extractPredictionsSpec
      extractTopLevelSpec extractCandidatesSpec
    cases hg : d.generatedImages <;> cases hp : d.predictions <;> cases hc : d.candidates <;>
      simp [foldl_push_filterMap genImageValue, foldl_push_filterMap predictionValue,
        cand_foldl_flatMap googlePartValue, List.append_assoc]
  · intro img
    unfold genImageValue
    split_ifs with h1 h2 h3 h4
    · exact iff_of_false (fun he => truthyStr_ne_none h1 he) (by simp [h1])
    · exact iff_of_false
        (fun he => truthyStr_ne_none h2 (Option.map_eq_none'.mp he)) (by simp [h2])
    · exact iff_of_false (fun he => truthyStr_ne_none h3 he) (by simp [h3])
    · exact iff_of_false
        (fun he => truthyStr_ne_none h4 (Option.map_eq_none'.mp he)) (by simp [h4])
    · simp_all
  · intro p
    unfold predictionValue
    split_ifs with h1 h2 h3
    · exact iff_of_false
        (fun he => truthyStr_ne_none h1 (Option.map_eq_none'.mp he)) (by simp [h1])
    · exact iff_of_false (fun he => truthyStr_ne_none h2 he) (by simp [h2])
    · exact iff_of_false
        (fun he => truthyStr_ne_none h3 (Option.map_eq_none'.mp he)) (by simp [h3])
    · simp_all
  · intro p
    unfold googlePartValue
    cases hi : p.inlineData with
    | none => simp
    | some idt =>
      cases hm : idt.mimeType with
      | none => simp [hm]
      | some mt =>
        dsimp only
        rw [hm]
        dsimp only
        split_ifs with h <;> simp [hm, h]

/-- Witness: a response combining two shapes extracts in shape order. -/
theorem extract_images_shape_cumulative_witness :
    extractImagesFromResponse
      { base64 := "QUJD", candidates := some [oneImageCandidate] }
      = extractGeneratedSpec { base64 := "QUJD", candidates := some [oneImageCandidate] }
        ++ (extractPredictionsSpec { base64 := "QUJD", candidates := some [oneImageCandidate] }
        ++ (extractTopLevelSpec { base64 := "QUJD", candidates := some [oneImageCandidate] }
        ++ extractCandidatesSpec { base64 := "QUJD", candidates := some [oneImageCandidate] })) :=
  (extract_images_shape_cumulative
    { base64 := "QUJD", candidates := some [oneImageCandidate] }).1

/-! ## C3 — multi-endpoint attempt loop -/

/-- C3 counterexample: a zero-image attempt does NOT update the recorded
last error.  A single endpoint returning parseable JSON with no images
leaves `lastError` at `none`, so the terminal message reads Unknown error;
and after a first attempt that recorded an HTTP error, a second zero-image
attempt leaves that first error in place. -/
theorem zero_image_attempt_keeps_last_error_cex :
    googleRun [EndpointOutcome.parsed emptyProviderResponse] none = (none, none)
    ∧ generateImagesWithGoogle [EndpointOutcome.parsed emptyProviderResponse]
        = Except.error (googleTerminalMsg 1 none)
    ∧ googleRun
        [EndpointOutcome.httpError "HTTP 404: not found",
         EndpointOutcome.parsed emptyProviderResponse] none
        = (none, some "HTTP 404: not found") :=
  ⟨rfl, rfl, rfl⟩

/-- C3 amended: every attempt failure is non-fatal and the next endpoint is
tried; an HTTP error, non-JSON body, parse failure or thrown fetch updates
the recorded last error, while a zero-image attempt proceeds with the last
error unchanged; a non-empty extraction returns immediately; and only once
every endpoint has failed does the adapter throw, with a terminal message
naming the number of endpoints tried and the last error observed. -/
theorem endpoint_loop_error_handling :
    (∀ m rest le, googleRun (EndpointOutcome.httpError m :: rest) le = googleRun rest (some m))
    ∧ (∀ m rest le, googleRun (EndpointOutcome.nonJsonBody m :: rest) le = googleRun rest (some m))
    ∧ (∀ m rest le, googleRun (EndpointOutcome.parseFailure m :: rest) le = googleRun rest (some m))
    ∧ (∀ m rest le, googleRun (EndpointOutcome.fetchThrow m :: rest) le = googleRun rest (some m))
    ∧ (∀ d rest le, extractImagesFromResponse d = [] →
        googleRun (EndpointOutcome.parsed d :: rest) le = googleRun rest le)
    ∧ (∀ d rest le, extractImagesFromResponse d ≠ [] →
        googleRun (EndpointOutcome.parsed d :: rest) le = (some (extractImagesFromResponse d), le))
    ∧ (∀ outcomes, (googleRun outcomes none).1 = none →
        generateImagesWithGoogle outcomes
          = Except.error (googleTerminalMsg outcomes.length (googleRun outcomes none).2))
    ∧ (∀ outcomes imgs le, googleRun outcomes none = (some imgs, le) →
        generateImagesWithGoogle outcomes = Except.ok imgs) := by
  refine ⟨fun m rest le => rfl, fun m rest le => rfl, fun m rest le => rfl, fun m rest le => rfl,
    ?_, ?_, ?_, ?_⟩
  · intro d rest le h
    simp [googleRun, h]
  · intro d rest le h
    simp [googleRun, List.length_pos.mpr h]
  · intro outcomes h
    unfold generateImagesWithGoogle
    rcases hr : googleRun outcomes none with ⟨o, le⟩
    rw [hr] at h
    cases o with
    | none => simp [hr]
    | some imgs => simp at h
  · intro outcomes imgs le h
    simp [generateImagesWithGoogle, h]

/-- Witness: the zero-image skip rule applied at a concrete input. -/
theorem endpoint_loop_error_handling_witness :
    googleRun [EndpointOutcome.parsed emptyProviderResponse,
      EndpointOutcome.httpError "HTTP 500"] (some "seed")
      = googleRun [EndpointOutcome.httpError "HTTP 500"] (some "seed") :=
  endpoint_loop_error_handling.2.2.2.2.1 emptyProviderResponse
    [EndpointOutcome.httpError "HTTP 500"] (some "seed") rfl

/-! ## C7 — post-processing dimension resolution -/

/-- C7 counterexample: for a store identifier outside the ios/android table
("both"), the post-processor does not default to 1024x1024 — it keeps the
source image's metadata dimensions (here 800x600). -/
theorem unrecognized_store_keeps_source_dims_cex :
    postProcessImage "both" { width := some 800, height := some 600 }
      = { width := 800, height := 600, mimeType := "image/png" }
    ∧ ¬((postProcessImage "both" { width := some 800, height := some 600 }).width = 1024
        ∧ (postProcessImage "both" { width := some 800, height := some 600 }).height = 1024) := by
  refine ⟨rfl, ?_⟩
  decide

/-- C7 amended: the recognized identifiers resolve exactly per the prompt
builder's aspect-ratio table (ios → the appstore entry 1024x1024, android →
the playstore entry 1024x500); every other identifier keeps the source
image's metadata dimensions, defaulting each axis to 1024 only when the
metadata lacks it; PNG conversion applies in every branch. -/
theorem post_processor_dims_spec (meta : ImageMeta) :
    (postProcessImage "ios" meta).width = (getAspectRatio TargetStore.appstore).width
    ∧ (postProcessImage "ios" meta).height = (getAspectRatio TargetStore.appstore).height
    ∧ (postProcessImage "android" meta).width = (getAspectRatio TargetStore.playstore).width
    ∧ (postProcessImage "android" meta).height = (getAspectRatio TargetStore.playstore).height
    ∧ (∀ s : String, s ≠ "ios" → s ≠ "android" →
        postProcessImage s meta
          = { width := meta.width.getD 1024, height := meta.height.getD 1024,
              mimeType := "image/png" })
    ∧ (∀ s : String, (postProcessImage s meta).mimeType = "image/png") := by
  refine ⟨rfl, rfl, rfl, rfl, ?_, ?_⟩
  · intro s h1 h2
    simp [postProcessImage, h1, h2]
  · intro s
    unfold postProcessImage
    split_ifs <;> rfl

/-- Witness: the amended default branch at a concrete unrecognized store. -/
theorem post_processor_dims_spec_witness :
    postProcessImage "both" { width := some 640, height := none }
      = { width := 640, height := 1024, mimeType := "image/png" } :=
  (post_processor_dims_spec { width := some 640, height := none }).2.2.2.2.1
    "both" (by decide) (by decide)

/-! ## C8 — restart acceptance and error-field clearing -/

/-- C8 counterexample: restarting a failed job does NOT clear its prior
error fields — the error message (and the old finish timestamp) survive
into the running state. -/
theorem failed_restart_keeps_error_cex :
    restartPrelude failedJobCex 10
      = some { status := "running", started_at := some 10, finished_at := some 5,
               error_message := some "boom", error_code := some "GENERATION_ERROR" }
    ∧ Option.map JobRow.error_message (restartPrelude failedJobCex 10) ≠ some none := by
  refine ⟨rfl, ?_⟩
  decide

/-- C8 amended: the restart is accepted exactly when the job's status is
queued, failed or cancelled (a succeeded job is rejected); an accepted
restart of a cancelled job clears the prior error message and finish
timestamp before re-entering processing, while an accepted restart of a
failed job re-enters processing with its prior error fields retained. -/
theorem restart_acceptance_spec (job : JobRow) (now : Nat) :
    ((restartPrelude job now).isSome
      ↔ (job.status = "queued" ∨ job.status = "failed" ∨ job.status = "cancelled"))
    ∧ (job.status = "cancelled" →
        restartPrelude job now
          = some { job with
                    status := "running"
                    started_at := some now
                    error_message := none
                    finished_at := none })
    ∧ (job.status = "failed" →
        restartPrelude job now
          = some { job with status := "running", started_at := some now })
    ∧ (job.status = "succeeded" → restartPrelude job now = none) := by
  refine ⟨?_, ?_, ?_, ?_⟩
  · unfold restartPrelude
    split_ifs with h <;> simp <;> tauto
  · intro h
    unfold restartPrelude
    rw [if_neg (by simp [h])]
    rw [if_pos h]
  · intro h
    unfold restartPrelude
    rw [if_neg (by simp [h])]
    rw [if_neg (by simp [h])]
  · intro h
    unfold restartPrelude
    rw [if_pos (by simp [h])]

/-- Witness: a queued job is accepted; a succeeded one is rejected. -/
theorem restart_acceptance_spec_witness :
    (restartPrelude { status := "queued" } 3).isSome
    ∧ restartPrelude { status := "succeeded" } 3 = none := by
  exact ⟨(restart_acceptance_spec { status := "queued" } 3).1.mpr (Or.inl rfl),
    (restart_acceptance_spec { status := "succeeded" } 3).2.2.2 rfl⟩

/-! ## C1 — persistence failure aborts the whole job -/

lemma persistLoop_fail_at (penv : PersistEnv) :
    ∀ (imgs : List GeneratedImage) (i k : Nat), k < imgs.length →
    (∀ j, j < k → penv.uploadErr (i + j) = none ∧ penv.insertErr (i + j) = none) →
    (penv.uploadErr (i + k) ≠ none ∨ penv.insertErr (i + k) ≠ none) →
    (persistLoop penv imgs i).1.map OutputRow.variantIndex = List.range' i k
    ∧ (persistLoop penv imgs i).2.1 ≠ none
    ∧ (persistLoop penv imgs i).2.2 = k + 1 := by
  intro imgs
  induction imgs with
  | nil =>
    intro i k hk _ _
    simp at hk
  | cons x rest ih =>
    intro i k hk hok hfail
    cases k with
    | zero =>
      rw [Nat.add_zero] at hfail
      rcases hu : penv.uploadErr i with _ | m
      · rcases hins : penv.insertErr i with _ | m
        · rw [hu, hins] at hfail
          simp at hfail
        · simp [persistLoop, hu, hins, List.range']
      · simp [persistLoop, hu, List.range']
    | succ k2 =>
      have h0 := hok 0 (Nat.succ_pos k2)
      rw [Nat.add_zero] at h0
      have ih2 := ih (i + 1) k2 (by simpa using hk)
        (fun j hj => by
          have hj2 := hok (j + 1) (by omega)
          rwa [show i + (j + 1) = i + 1 + j by omega] at hj2)
        (by rwa [show i + (k2 + 1) = i + 1 + k2 by omega] at hfail)
      simp only [persistLoop, h0.1, h0.2]
      refine ⟨?_, ih2.2.1, by rw [ih2.2.2]⟩
      simp only [List.map_cons, ih2.1]
      rw [List.range'_succ i k2 1]

/-- C1: if the blob upload or the Output-row insert fails for the variant at
index k, the job is finalized as failed with a finish timestamp, an error
message and the fixed error code GENERATION_ERROR; the Output rows already
inserted are exactly those of variants 0..k-1 (they are not retracted); and
the loop entered exactly k+1 variants, so no variant after k is processed. -/
theorem persist_failure_aborts_job (penv : PersistEnv) (imgs : List GeneratedImage)
    (job : JobRow) (now : Nat) (k : Nat)
    (hk : k < imgs.length)
    (hok : ∀ j, j < k → penv.uploadErr j = none ∧ penv.insertErr j = none)
    (hfail : penv.uploadErr k ≠ none ∨ penv.insertErr k ≠ none) :
    (finalizeJob job now (persistLoop penv imgs 0).2.1).status = "failed"
    ∧ (finalizeJob job now (persistLoop penv imgs 0).2.1).finished_at = some now
    ∧ (finalizeJob job now (persistLoop penv imgs 0).2.1).error_message ≠ none
    ∧ (finalizeJob job now (persistLoop penv imgs 0).2.1).error_code = some "GENERATION_ERROR"
    ∧ (persistLoop penv imgs 0).1.map OutputRow.variantIndex = List.range k
    ∧ (persistLoop penv imgs 0).2.2 = k + 1 := by
  have h := persistLoop_fail_at penv imgs 0 k hk
    (fun j hj => by simpa using hok j hj)
    (by simpa using hfail)
  rcases he : (persistLoop penv imgs 0).2.1 with _ | m
  · exact absurd he h.2.1
  · refine ⟨?_, ?_, ?_, ?_, ?_, h.2.2⟩ <;>
      simp [he, finalizeJob, h.1, List.range_eq_range']

/-- Witness: three generated images, the upload of variant index 1 fails:
the job fails with the fixed code and exactly variant 0 remains. -/
theorem persist_failure_aborts_job_witness :
    (finalizeJob runningJob 7 (persistLoop penvUploadFailAt1 threeImages 0).2.1).status = "failed"
    ∧ (finalizeJob runningJob 7 (persistLoop penvUploadFailAt1 threeImages 0).2.1).finished_at
        = some 7
    ∧ (finalizeJob runningJob 7 (persistLoop penvUploadFailAt1 threeImages 0).2.1).error_message
        ≠ none
    ∧ (finalizeJob runningJob 7 (persistLoop penvUploadFailAt1 threeImages 0).2.1).error_code
        = some "GENERATION_ERROR"
    ∧ (persistLoop penvUploadFailAt1 threeImages 0).1.map OutputRow.variantIndex = List.range 1
    ∧ (persistLoop penvUploadFailAt1 threeImages 0).2.2 = 1 + 1 :=
  persist_failure_aborts_job penvUploadFailAt1 threeImages runningJob 7 1
    (by decide) (by decide) (Or.inl (by decide))

/-! ## C2 — per-variation partial tolerance -/

lemma geminiRun_env0_fail (env : Nat → GeminiAttempt) (m : String) (n : Nat)
    (h : env 0 = GeminiAttempt.fail m) :
    (geminiRun env (n + 1) 0 []).1 = Except.error (geminiFirstFailMsg m) := by
  simp [geminiRun, h]

lemma geminiRun_two_second_fail (env : Nat → GeminiAttempt)
    (cands : Option (List CandidateItem)) (m : String)
    (h0 : env 0 = GeminiAttempt.ok cands)
    (hne : geminiResponseImages cands ≠ [])
    (h1 : env 1 = GeminiAttempt.fail m) :
    (generateImagesWithGemini env 2).1 = Except.ok (geminiResponseImages cands) := by
  obtain ⟨a, as, ha⟩ := List.exists_cons_of_ne_nil hne
  simp [generateImagesWithGemini, geminiRun, h0, h1, ha]

/-- C2: in the one-request-per-variation Gemini mode, a failure of the
request for variation 0 makes the whole call throw; a failure of a later
request is swallowed and the loop continues, so the call returns the images
that did succeed — and a job requesting 2 variations whose second provider
call fails ends succeeded with exactly the Output rows of the images the
first call yielded (one row when it yielded one image). -/
theorem per_variation_partial_tolerance :
    (∀ (env : Nat → GeminiAttempt) m n, env 0 = GeminiAttempt.fail m → 0 < n →
      (generateImagesWithGemini env n).1 = Except.error (geminiFirstFailMsg m))
    ∧ (∀ (env : Nat → GeminiAttempt) cands m, env 0 = GeminiAttempt.ok cands →
        geminiResponseImages cands ≠ [] → env 1 = GeminiAttempt.fail m →
        (generateImagesWithGemini env 2).1 = Except.ok (geminiResponseImages cands))
    ∧ (∀ (env : Nat → GeminiAttempt) cands m (penv : PersistEnv) job now,
        env 0 = GeminiAttempt.ok cands → (geminiResponseImages cands).length = 1 →
        env 1 = GeminiAttempt.fail m →
        (∀ i, penv.uploadErr i = none ∧ penv.insertErr i = none) →
        (runGenerationJob env penv job 2 now).1.status = "succeeded"
        ∧ (runGenerationJob env penv job 2 now).2.length = 1) := by
  refine ⟨?_, ?_, ?_⟩
  · intro env m n h hn
    cases n with
    | zero => exact absurd hn (by decide)
    | succ n2 => exact geminiRun_env0_fail env m n2 h
  · intro env cands m h0 hne h1
    exact geminiRun_two_second_fail env cands m h0 hne h1
  · intro env cands m penv job now h0 hlen h1 hpenv
    obtain ⟨a, ha⟩ := List.length_eq_one.mp hlen
    have hok : (generateImagesWithGemini env 2).1 = Except.ok (geminiResponseImages cands) :=
      geminiRun_two_second_fail env cands m h0 (by simp [ha]) h1
    unfold runGenerationJob
    rw [hok, ha]
    simp [persistLoop, (hpenv 0).1, (hpenv 0).2, finalizeJob]

/-- Witness: two variations requested, the first call yields one image, the
second fails: the job ends succeeded with exactly one Output row. -/
theorem per_variation_partial_tolerance_witness :
    (runGenerationJob envOneThenFail penvAllOk runningJob 2 9).1.status = "succeeded"
    ∧ (runGenerationJob envOneThenFail penvAllOk runningJob 2 9).2.length = 1 :=
  per_variation_partial_tolerance.2.2 envOneThenFail (some [oneImageCandidate])
    "HTTP 500: internal error" penvAllOk runningJob 9 rfl (by decide) rfl
    (fun _ => ⟨rfl, rfl⟩)

/-! ## C9 — one response may contribute several images -/

lemma geminiRun_count_le (env : Nat → GeminiAttempt) :
    ∀ (n i : Nat) (acc : List GeneratedImage), (geminiRun env n i acc).2 ≤ n := by
  intro n
  induction n with
  | zero => intro i acc; simp [geminiRun]
  | succ n2 ih =>
    intro i acc
    unfold geminiRun
    cases env i with
    | fail m =>
      dsimp only
      split_ifs
      · exact Nat.succ_le_succ (Nat.zero_le n2)
      · exact Nat.succ_le_succ (ih (i + 1) acc)
    | ok cands => exact Nat.succ_le_succ (ih (i + 1) (acc ++ geminiResponseImages cands))

/-- C9: the requested variation count bounds the number of provider requests
issued, not the number of images returned: every inline image part of every
candidate in a response is appended, so one request can contribute several
images, and a concrete job requesting 1 variation receives 2 images and
persists 2 Output rows. -/
theorem response_images_exceed_requested :
    (∀ (env : Nat → GeminiAttempt) n, (generateImagesWithGemini env n).2 ≤ n)
    ∧ (generateImagesWithGemini envTwoPerResponse 1).2 = 1
    ∧ (generateImagesWithGemini envTwoPerResponse 1).1
        = Except.ok [{ data := "AAA", mimeType := "image/png" },
                     { data := "BBB", mimeType := "image/png" }]
    ∧ (runGenerationJob envTwoPerResponse penvAllOk runningJob 1 7).2.length = 2
    ∧ 1 < (runGenerationJob envTwoPerResponse penvAllOk runningJob 1 7).2.length := by
  refine ⟨fun env n => geminiRun_count_le env n 0 [], rfl, rfl, rfl, ?_⟩
  decide

/-! ## C6 — critique score: additive, clamped, monotone -/

lemma sub_ite_step (P : Prop) [Decidable P] (s p : Int) :
    (if P then s - p else s) = s - (if P then p else 0) := by
  split <;> simp

lemma critiqueScoreRaw_eq (c : JobConfig) (k : AssetCounts) :
    critiqueScoreRaw c k = 100 - totalPenalty c k := by
  unfold critiqueScoreRaw totalPenalty critiqueFires critiquePenalties
  simp only [List.zipWith_cons_cons, List.zipWith_nil_right, List.sum_cons, List.sum_nil,
    decide_eq_true_eq, sub_ite_step]
  push_cast
  ring

lemma critique_score_closed_form (c : JobConfig) (k : AssetCounts) :
    (critiqueCoverConfig c k).score = max 0 (100 - totalPenalty c k) := by
  rw [← critiqueScoreRaw_eq]
  rfl

lemma totalPenalty_nonneg (c : JobConfig) (k : AssetCounts) : 0 ≤ totalPenalty c k := by
  unfold totalPenalty
  exact Int.natCast_nonneg _

lemma ite_penalty_mono (a b : Bool) (p : Nat) (hab : a = true → b = true) :
    (if a then p else 0) ≤ if b then p else 0 := by
  cases a
  · simp
  · rw [hab rfl]

lemma totalPenalty_mono (c1 : JobConfig) (k1 : AssetCounts) (c2 : JobConfig) (k2 : AssetCounts)
    (hf : List.Forall₂ (fun a b => a = true → b = true)
      (critiqueFires c1 k1) (critiqueFires c2 k2)) :
    totalPenalty c1 k1 ≤ totalPenalty c2 k2 := by
  unfold critiqueFires at hf
  simp only [List.forall₂_cons] at hf
  obtain ⟨h0, h1, h2, h3, h4, h5, h6, h7, h8, -⟩ := hf
  unfold totalPenalty critiqueFires critiquePenalties
  simp only [List.zipWith_cons_cons, List.zipWith_nil_right, List.sum_cons, List.sum_nil]
  exact Nat.cast_le.mpr
    (Nat.add_le_add (ite_penalty_mono _ _ _ h0)
      (Nat.add_le_add (ite_penalty_mono _ _ _ h1)
        (Nat.add_le_add (ite_penalty_mono _ _ _ h2)
          (Nat.add_le_add (ite_penalty_mono _ _ _ h3)
            (Nat.add_le_add (ite_penalty_mono _ _ _ h4)
              (Nat.add_le_add (ite_penalty_mono _ _ _ h5)
                (Nat.add_le_add (ite_penalty_mono _ _ _ h6)
                  (Nat.add_le_add (ite_penalty_mono _ _ _ h7)
                    (Nat.add_le_add (ite_penalty_mono _ _ _ h8) (Nat.le_refl 0))))))))))

/-- C6: the critique score equals 100 minus the sum of the penalties of the
independently evaluated rules that fire (each rule contributes its penalty
at most once), floored at 0, hence always lies in 0..100; and whenever the
rules firing for one input also fire for another (the second input only
adds penalty-triggering conditions), the second score is not larger. -/
theorem critique_score_additive_monotone :
    (∀ (c : JobConfig) (k : AssetCounts),
      (critiqueCoverConfig c k).score = max 0 (100 - totalPenalty c k))
    ∧ (∀ (c : JobConfig) (k : AssetCounts),
        0 ≤ (critiqueCoverConfig c k).score ∧ (critiqueCoverConfig c k).score ≤ 100)
    ∧ (∀ (c1 : JobConfig) (k1 : AssetCounts) (c2 : JobConfig) (k2 : AssetCounts),
        List.Forall₂ (fun a b => a = true → b = true)
          (critiqueFires c1 k1) (critiqueFires c2 k2) →
        (critiqueCoverConfig c2 k2).score ≤ (critiqueCoverConfig c1 k1).score) := by
  refine ⟨critique_score_closed_form, ?_, ?_⟩
  · intro c k
    rw [critique_score_closed_form]
    have := totalPenalty_nonneg c k
    omega
  · intro c1 k1 c2 k2 hf
    rw [critique_score_closed_form, critique_score_closed_form]
    have := totalPenalty_mono c1 k1 c2 k2 hf
    omega

/-! ## C5 and C10 — prompt structure machinery -/

lemma key5_append (p q : String) (h : 5 ≤ p.data.length) : key5 (p ++ q) = key5 p := by
  simp [key5, String.data_append, List.take_append_of_le_length h]

lemma ne_of_key5_ne {a b : String} (h : key5 a ≠ key5 b) : a ≠ b :=
  fun he => h (he ▸ rfl)

lemma key5_openingClause (cat : String) :
    key5 (openingClause cat) = ['C', 'r', 'e', 'a', 't'] := by
  unfold openingClause
  rw [key5_append _ _ (by decide)]
  decide

lemma key5_goalClause (g : Goal) : key5 (goalClause g) = ['D', 'e', 's', 'i', 'g'] := by
  cases g <;> decide

lemma key5_mainMessageClause (m : String) :
    key5 (mainMessageClause m) = ['T', 'h', 'e', ' ', 'c'] := by
  unfold mainMessageClause
  rw [key5_append _ _ (by decide)]
  decide

lemma key5_showManyClause (n : Nat) :
    key5 (showManyClause n) = ['S', 'h', 'o', 'w', ' '] := by
  unfold showManyClause
  rw [key5_append _ _ (by decide)]
  decide

lemma ne_openingClause {y : String} (cat : String)
    (hk : key5 y ≠ ['C', 'r', 'e', 'a', 't']) : y ≠ openingClause cat :=
  fun he => hk (by rw [he, key5_openingClause])

lemma ne_mainMessageClause {y : String} (m : String)
    (hk : key5 y ≠ ['T', 'h', 'e', ' ', 'c']) : y ≠ mainMessageClause m :=
  fun he => hk (by rw [he, key5_mainMessageClause])

lemma ne_showManyClause {y : String} (n : Nat)
    (hk : key5 y ≠ ['S', 'h', 'o', 'w', ' ']) : y ≠ showManyClause n :=
  fun he => hk (by rw [he, key5_showManyClause])

lemma mem_storeSegs {y : String} {t : TargetStore} (h : y ∈ storeSegs t) :
    y = iosFormatClause ∨ y = playFormatClause := by
  unfold storeSegs at h
  split_ifs at h <;> simp_all <;> tauto

lemma mem_presetSegs {y : String} {p : StylePreset} (h : y ∈ presetSegs p) :
    y = presetHeaderClause p ∨ y = toneClause p ∨ y = contrastClause p
    ∨ y = densityClause p ∨ y = layoutClause p := by
  unfold presetSegs at h
  split_ifs at h <;> simp_all <;> tauto

lemma mem_refSegs {y : String} {refs : List AssetInfo} (h : y ∈ refSegs refs) :
    y = referenceStyleClause := by
  unfold refSegs at h
  split_ifs at h <;> simp_all

lemma mem_shotSegs {y : String} {shots : List AssetInfo} (h : y ∈ shotSegs shots) :
    y = screenshotsIntroClause ∨ y = showOneClause ∨ y = showTwoClause
    ∨ y = showManyClause shots.length := by
  unfold shotSegs at h
  split_ifs at h <;> simp_all <;> tauto

lemma mem_logoSegs {y : String} {logos : List AssetInfo} (h : y ∈ logoSegs logos) :
    y = brandLogoClause := by
  unfold logoSegs at h
  split_ifs at h <;> simp_all

lemma mem_msgSegs {y : String} {m : String} (h : y ∈ msgSegs m) :
    y = mainMessageClause m := by
  unfold msgSegs at h
  split_ifs at h <;> simp_all

lemma mem_closingSegs {y : String} (h : y ∈ closingSegs) :
    y = qualityClause ∨ y = noTextClause ∨ y = productionClause := by
  simp [closingSegs] at h
  tauto

lemma usedPreset_cases (c : JobConfig) :
    usedPreset c = minimalPreset ∨ usedPreset c = boldGradientPreset
    ∨ usedPreset c = neonGamingPreset ∨ usedPreset c = corporateTrustPreset
    ∨ usedPreset c = modernSaasPreset := by
  unfold usedPreset STYLE_PRESETS
  split_ifs <;> simp <;> tauto

lemma key5_presetSegs {y : String} (c : JobConfig)
    (h : y ∈ presetSegs (usedPreset c)) : key5 y ∈ presetKeys := by
  rcases usedPreset_cases c with hp | hp | hp | hp | hp <;> rw [hp] at h <;>
    rcases mem_presetSegs h with h2 | h2 | h2 | h2 | h2 <;> subst h2 <;> decide

lemma not_mem_presetSegs {y : String} (c : JobConfig) (hk : key5 y ∉ presetKeys) :
    y ∉ presetSegs (usedPreset c) :=
  fun h => hk (key5_presetSegs c h)

lemma mem_promptSegments_iff (c : JobConfig) (assets : List AssetInfo) (y : String) :
    y ∈ promptSegments c assets ↔
      y = openingClause c.appCategory ∨ y = goalClause c.goal
      ∨ y ∈ storeSegs c.targetStore ∨ y ∈ presetSegs (usedPreset c)
      ∨ y ∈ refSegs (referenceCovers c assets) ∨ y ∈ shotSegs (screenshots c assets)
      ∨ y ∈ logoSegs (brandLogos c assets) ∨ y ∈ msgSegs c.mainMessage
      ∨ y ∈ closingSegs := by
  unfold promptSegments
  simp [List.mem_append, or_assoc]

lemma mainMessageClause_ne_of_key {m b : String}
    (hb : key5 b ≠ ['T', 'h', 'e', ' ', 'c']) : mainMessageClause m ≠ b :=
  fun he => hb (by rw [← he, key5_mainMessageClause])

lemma goalClause_ne_of_key {g : Goal} {b : String}
    (hb : key5 b ≠ ['D', 'e', 's', 'i', 'g']) : goalClause g ≠ b :=
  fun he => hb (by rw [← he, key5_goalClause])

lemma ios_mem_storeSegs_iff (t : TargetStore) :
    iosFormatClause ∈ storeSegs t ↔ (t = TargetStore.appstore ∨ t = TargetStore.both) := by
  cases t <;> decide

lemma play_mem_storeSegs_iff (t : TargetStore) :
    playFormatClause ∈ storeSegs t ↔ (t = TargetStore.playstore ∨ t = TargetStore.both) := by
  cases t <;> decide

lemma msg_mem_msgSegs_iff (m : String) :
    mainMessageClause m ∈ msgSegs m ↔ m ≠ "" := by
  unfold msgSegs
  split_ifs with h <;> simp [h]

lemma ref_mem_refSegs_iff (refs : List AssetInfo) :
    referenceStyleClause ∈ refSegs refs ↔ refs ≠ [] := by
  unfold refSegs
  split_ifs with h <;>
    first
      | simp [List.length_pos.mp h]
      | simp [List.length_eq_zero.mp (Nat.eq_zero_of_not_pos h)]

lemma inc_mem_shotSegs_iff (shots : List AssetInfo) :
    screenshotsIntroClause ∈ shotSegs shots ↔ shots ≠ [] := by
  unfold shotSegs
  split_ifs with h h1 h2 <;>
    first
      | simp [List.length_pos.mp h]
      | simp [List.length_eq_zero.mp (Nat.eq_zero_of_not_pos h)]

lemma logo_mem_logoSegs_iff (logos : List AssetInfo) :
    brandLogoClause ∈ logoSegs logos ↔ logos ≠ [] := by
  unfold logoSegs
  split_ifs with h <;>
    first
      | simp [List.length_pos.mp h]
      | simp [List.length_eq_zero.mp (Nat.eq_zero_of_not_pos h)]

lemma ios_resolve {c : JobConfig} {assets : List AssetInfo}
    (h : iosFormatClause ∈ promptSegments c assets) :
    iosFormatClause ∈ storeSegs c.targetStore := by
  rw [mem_promptSegments_iff] at h
  rcases h with h | h | h | h | h | h | h | h | h
  · exact absurd h (ne_openingClause _ (by decide))
  · exact absurd h (by cases hg : c.goal <;> decide)
  · exact h
  · exact absurd h (not_mem_presetSegs c (by decide))
  · exact absurd (mem_refSegs h) (by decide)
  · rcases mem_shotSegs h with h | h | h | h
    · exact absurd h (by decide)
    · exact absurd h (by decide)
    · exact absurd h (by decide)
    · exact absurd h (ne_showManyClause _ (by decide))
  · exact absurd (mem_logoSegs h) (by decide)
  · exact absurd (mem_msgSegs h) (ne_mainMessageClause _ (by decide))
  · rcases mem_closingSegs h with h | h | h <;> exact absurd h (by decide)

lemma play_resolve {c : JobConfig} {assets : List AssetInfo}
    (h : playFormatClause ∈ promptSegments c assets) :
    playFormatClause ∈ storeSegs c.targetStore := by
  rw [mem_promptSegments_iff] at h
  rcases h with h | h | h | h | h | h | h | h | h
  · exact absurd h (ne_openingClause _ (by decide))
  · exact absurd h (by cases hg : c.goal <;> decide)
  · exact h
  · exact absurd h (not_mem_presetSegs c (by decide))
  · exact absurd (mem_refSegs h) (by decide)
  · rcases mem_shotSegs h with h | h | h | h
    · exact absurd h (by decide)
    · exact absurd h (by decide)
    · exact absurd h (by decide)
    · exact absurd h (ne_showManyClause _ (by decide))
  · exact absurd (mem_logoSegs h) (by decide)
  · exact absurd (mem_msgSegs h) (ne_mainMessageClause _ (by decide))
  · rcases mem_closingSegs h with h | h | h <;> exact absurd h (by decide)

lemma msg_resolve {c : JobConfig} {assets : List AssetInfo}
    (h : mainMessageClause c.mainMessage ∈ promptSegments c assets) :
    mainMessageClause c.mainMessage ∈ msgSegs c.mainMessage := by
  rw [mem_promptSegments_iff] at h
  rcases h with h | h | h | h | h | h | h | h | h
  · exact absurd h (mainMessageClause_ne_of_key (by rw [key5_openingClause]; decide))
  · exact absurd h (mainMessageClause_ne_of_key (by rw [key5_goalClause]; decide))
  · rcases mem_storeSegs h with h | h <;>
      exact absurd h (mainMessageClause_ne_of_key (by decide))
  · exact absurd h (not_mem_presetSegs c (by rw [key5_mainMessageClause]; decide))
  · exact absurd (mem_refSegs h) (mainMessageClause_ne_of_key (by decide))
  · rcases mem_shotSegs h with h | h | h | h
    · exact absurd h (mainMessageClause_ne_of_key (by decide))
    · exact absurd h (mainMessageClause_ne_of_key (by decide))
    · exact absurd h (mainMessageClause_ne_of_key (by decide))
    · exact absurd h (mainMessageClause_ne_of_key (by rw [key5_showManyClause]; decide))
  · exact absurd (mem_logoSegs h) (mainMessageClause_ne_of_key (by decide))
  · exact h
  · rcases mem_closingSegs h with h | h | h <;>
      exact absurd h (mainMessageClause_ne_of_key (by decide))

lemma ref_resolve {c : JobConfig} {assets : List AssetInfo}
    (h : referenceStyleClause ∈ promptSegments c assets) :
    referenceStyleClause ∈ refSegs (referenceCovers c assets) := by
  rw [mem_promptSegments_iff] at h
  rcases h with h | h | h | h | h | h | h | h | h
  · exact absurd h (ne_openingClause _ (by decide))
  · exact absurd h (by cases hg : c.goal <;> decide)
  · rcases mem_storeSegs h with h | h <;> exact absurd h (by decide)
  · exact absurd h (not_mem_presetSegs c (by decide))
  · exact h
  · rcases mem_shotSegs h with h | h | h | h
    · exact absurd h (by decide)
    · exact absurd h (by decide)
    · exact absurd h (by decide)
    · exact absurd h (ne_showManyClause _ (by decide))
  · exact absurd (mem_logoSegs h) (by decide)
  · exact absurd (mem_msgSegs h) (ne_mainMessageClause _ (by decide))
  · rcases mem_closingSegs h with h | h | h <;> exact absurd h (by decide)

lemma inc_resolve {c : JobConfig} {assets : List AssetInfo}
    (h : screenshotsIntroClause ∈ promptSegments c assets) :
    screenshotsIntroClause ∈ shotSegs (screenshots c assets) := by
  rw [mem_promptSegments_iff] at h
  rcases h with h | h | h | h | h | h | h | h | h
  · exact absurd h (ne_openingClause _ (by decide))
  · exact absurd h (by cases hg : c.goal <;> decide)
  · rcases mem_storeSegs h with h | h <;> exact absurd h (by decide)
  · exact absurd h (not_mem_presetSegs c (by decide))
  · exact absurd (mem_refSegs h) (by decide)
  · exact h
  · exact absurd (mem_logoSegs h) (by decide)
  · exact absurd (mem_msgSegs h) (ne_mainMessageClause _ (by decide))
  · rcases mem_closingSegs h with h | h | h <;> exact absurd h (by decide)

lemma logo_resolve {c : JobConfig} {assets : List AssetInfo}
    (h : brandLogoClause ∈ promptSegments c assets) :
    brandLogoClause ∈ logoSegs (brandLogos c assets) := by
  rw [mem_promptSegments_iff] at h
  rcases h with h | h | h | h | h | h | h | h | h
  · exact absurd h (ne_openingClause _ (by decide))
  · exact absurd h (by cases hg : c.goal <;> decide)
  · rcases mem_storeSegs h with h | h <;> exact absurd h (by decide)
  · exact absurd h (not_mem_presetSegs c (by decide))
  · exact absurd (mem_refSegs h) (by decide)
  · rcases mem_shotSegs h with h | h | h | h
    · exact absurd h (by decide)
    · exact absurd h (by decide)
    · exact absurd h (by decide)
    · exact absurd h (ne_showManyClause _ (by decide))
  · exact h
  · exact absurd (mem_msgSegs h) (ne_mainMessageClause _ (by decide))
  · rcases mem_closingSegs h with h | h | h <;> exact absurd h (by decide)

lemma goalClause_count_blocks (c : JobConfig) (assets : List AssetInfo) :
    goalClause c.goal ∉ storeSegs c.targetStore
    ∧ goalClause c.goal ∉ presetSegs (usedPreset c)
    ∧ goalClause c.goal ∉ refSegs (referenceCovers c assets)
    ∧ goalClause c.goal ∉ shotSegs (screenshots c assets)
    ∧ goalClause c.goal ∉ logoSegs (brandLogos c assets)
    ∧ goalClause c.goal ∉ msgSegs c.mainMessage
    ∧ goalClause c.goal ∉ closingSegs := by
  refine ⟨?_, ?_, ?_, ?_, ?_, ?_, ?_⟩
  · intro h
    rcases mem_storeSegs h with h | h <;>
      exact absurd h (goalClause_ne_of_key (by decide))
  · exact not_mem_presetSegs c (by rw [key5_goalClause]; decide)
  · intro h
    exact absurd (mem_refSegs h) (goalClause_ne_of_key (by decide))
  · intro h
    rcases mem_shotSegs h with h | h | h | h
    · exact absurd h (goalClause_ne_of_key (by decide))
    · exact absurd h (goalClause_ne_of_key (by decide))
    · exact absurd h (goalClause_ne_of_key (by decide))
    · exact absurd h (goalClause_ne_of_key (by rw [key5_showManyClause]; decide))
  · intro h
    exact absurd (mem_logoSegs h) (goalClause_ne_of_key (by decide))
  · intro h
    exact absurd (mem_msgSegs h) (goalClause_ne_of_key (by rw [key5_mainMessageClause]; decide))
  · intro h
    rcases mem_closingSegs h with h | h | h <;>
      exact absurd h (goalClause_ne_of_key (by decide))

/-- C5: the prompt contains the configured goal clause exactly once; the
square-format clause iff the target includes the iOS store and the
wide-banner clause iff it includes the Play store (both when both); the
quoted main message verbatim iff the message is non-empty; and the
reference-style, screenshot (with wording selected by count: 1 prominent,
2 balanced, 3 or more a collage naming the exact count) and brand-logo
instructions iff at least one asset is selected in the corresponding role
(the source counts an asset when it is selected under that role and its
declared type matches). -/
theorem prompt_clause_structure (c : JobConfig) (assets : List AssetInfo) :
    (promptSegments c assets).count (goalClause c.goal) = 1
    ∧ (iosFormatClause ∈ promptSegments c assets
        ↔ (c.targetStore = TargetStore.appstore ∨ c.targetStore = TargetStore.both))
    ∧ (playFormatClause ∈ promptSegments c assets
        ↔ (c.targetStore = TargetStore.playstore ∨ c.targetStore = TargetStore.both))
    ∧ (mainMessageClause c.mainMessage ∈ promptSegments c assets ↔ c.mainMessage ≠ "")
    ∧ (referenceStyleClause ∈ promptSegments c assets ↔ referenceCovers c assets ≠ [])
    ∧ (screenshotsIntroClause ∈ promptSegments c assets ↔ screenshots c assets ≠ [])
    ∧ ((screenshots c assets).length = 1 → showOneClause ∈ promptSegments c assets)
    ∧ ((screenshots c assets).length = 2 → showTwoClause ∈ promptSegments c assets)
    ∧ (3 ≤ (screenshots c assets).length →
        showManyClause (screenshots c assets).length ∈ promptSegments c assets)
    ∧ (brandLogoClause ∈ promptSegments c assets ↔ brandLogos c assets ≠ []) := by
  obtain ⟨hb1, hb2, hb3, hb4, hb5, hb6, hb7⟩ := goalClause_count_blocks c assets
  refine ⟨?_, ?_, ?_, ?_, ?_, ?_, ?_, ?_, ?_, ?_⟩
  · unfold promptSegments
    simp only [List.count_append]
    rw [List.count_eq_zero.mpr hb1, List.count_eq_zero.mpr hb2, List.count_eq_zero.mpr hb3,
      List.count_eq_zero.mpr hb4, List.count_eq_zero.mpr hb5, List.count_eq_zero.mpr hb6,
      List.count_eq_zero.mpr hb7]
    have hne : goalClause c.goal ≠ openingClause c.appCategory :=
      goalClause_ne_of_key (by rw [key5_openingClause]; decide)
    simp [List.count_cons, hne]
  · constructor
    · intro h
      exact (ios_mem_storeSegs_iff c.targetStore).mp (ios_resolve h)
    · intro h
      rw [mem_promptSegments_iff]
      exact Or.inr (Or.inr (Or.inl ((ios_mem_storeSegs_iff c.targetStore).mpr h)))
  · constructor
    · intro h
      exact (play_mem_storeSegs_iff c.targetStore).mp (play_resolve h)
    · intro h
      rw [mem_promptSegments_iff]
      exact Or.inr (Or.inr (Or.inl ((play_mem_storeSegs_iff c.targetStore).mpr h)))
  · constructor
    · intro h
      exact (msg_mem_msgSegs_iff c.mainMessage).mp (msg_resolve h)
    · intro h
      rw [mem_promptSegments_iff]
      exact Or.inr (Or.inr (Or.inr (Or.inr (Or.inr (Or.inr (Or.inr (Or.inl
        ((msg_mem_msgSegs_iff c.mainMessage).mpr h))))))))
  · constructor
    · intro h
      exact (ref_mem_refSegs_iff (referenceCovers c assets)).mp (ref_resolve h)
    · intro h
      rw [mem_promptSegments_iff]
      exact Or.inr (Or.inr (Or.inr (Or.inr (Or.inl
        ((ref_mem_refSegs_iff (referenceCovers c assets)).mpr h)))))
  · constructor
    · intro h
      exact (inc_mem_shotSegs_iff (screenshots c assets)).mp (inc_resolve h)
    · intro h
      rw [mem_promptSegments_iff]
      exact Or.inr (Or.inr (Or.inr (Or.inr (Or.inr (Or.inl
        ((inc_mem_shotSegs_iff (screenshots c assets)).mpr h))))))
  · intro h
    rw [mem_promptSegments_iff]
    refine Or.inr (Or.inr (Or.inr (Or.inr (Or.inr (Or.inl ?_)))))
    unfold shotSegs
    rw [if_pos (by omega), if_pos h]
    simp
  · intro h
    rw [mem_promptSegments_iff]
    refine Or.inr (Or.inr (Or.inr (Or.inr (Or.inr (Or.inl ?_)))))
    unfold shotSegs
    rw [if_pos (by omega), if_neg (by omega), if_pos h]
    simp
  · intro h
    rw [mem_promptSegments_iff]
    refine Or.inr (Or.inr (Or.inr (Or.inr (Or.inr (Or.inl ?_)))))
    unfold shotSegs
    rw [if_pos (by omega), if_neg (by omega), if_neg (by omega)]
    simp
  · constructor
    · intro h
      exact (logo_mem_logoSegs_iff (brandLogos c assets)).mp (logo_resolve h)
    · intro h
      rw [mem_promptSegments_iff]
      exact Or.inr (Or.inr (Or.inr (Or.inr (Or.inr (Or.inr (Or.inl
        ((logo_mem_logoSegs_iff (brandLogos c assets)).mpr h)))))))

/-- Witness: a both-stores premium configuration with one selected reference
cover and one selected screenshot. -/
theorem prompt_clause_structure_witness :
    (promptSegments cfgW assetsW).count (goalClause cfgW.goal) = 1
    ∧ iosFormatClause ∈ promptSegments cfgW assetsW
    ∧ playFormatClause ∈ promptSegments cfgW assetsW
    ∧ mainMessageClause cfgW.mainMessage ∈ promptSegments cfgW assetsW
    ∧ showOneClause ∈ promptSegments cfgW assetsW :=
  ⟨(prompt_clause_structure cfgW assetsW).1,
   (prompt_clause_structure cfgW assetsW).2.1.mpr (Or.inr rfl),
   (prompt_clause_structure cfgW assetsW).2.2.1.mpr (Or.inr rfl),
   (prompt_clause_structure cfgW assetsW).2.2.2.1.mpr (by decide),
   (prompt_clause_structure cfgW assetsW).2.2.2.2.2.2.1 (by decide)⟩

/-- C10: a configuration whose style-preset id is not one of the five known
presets does not fail prompt building: the lookup misses, the minimal
preset is silently substituted, and the prompt still carries a style-preset
clause block. -/
theorem unknown_preset_falls_back_minimal (c : JobConfig) (assets : List AssetInfo)
    (h : c.stylePreset ∉
      ["minimal", "bold-gradient", "neon-gaming", "corporate-trust", "modern-saas"]) :
    STYLE_PRESETS c.stylePreset = none
    ∧ usedPreset c = minimalPreset
    ∧ presetHeaderClause minimalPreset ∈ promptSegments c assets
    ∧ toneClause minimalPreset ∈ promptSegments c assets
    ∧ layoutClause minimalPreset ∈ promptSegments c assets := by
  simp only [List.mem_cons, List.not_mem_nil, or_false, not_or] at h
  obtain ⟨h1, h2, h3, h4, h5⟩ := h
  have hsp : STYLE_PRESETS c.stylePreset = none := by
    unfold STYLE_PRESETS
    rw [if_neg h1, if_neg h2, if_neg h3, if_neg h4, if_neg h5]
  have hup : usedPreset c = minimalPreset := by
    unfold usedPreset
    rw [hsp]
    rfl
  refine ⟨hsp, hup, ?_, ?_, ?_⟩ <;>
    · rw [mem_promptSegments_iff]
      exact Or.inr (Or.inr (Or.inr (Or.inl (by rw [hup]; decide))))

/-- Witness: the unknown preset id retro-wave falls back to minimal. -/
theorem unknown_preset_falls_back_minimal_witness :
    STYLE_PRESETS cfgUnknownPreset.stylePreset = none
    ∧ usedPreset cfgUnknownPreset = minimalPreset
    ∧ presetHeaderClause minimalPreset ∈ promptSegments cfgUnknownPreset assetsW
    ∧ toneClause minimalPreset ∈ promptSegments cfgUnknownPreset assetsW
    ∧ layoutClause minimalPreset ∈ promptSegments cfgUnknownPreset assetsW :=
  unknown_preset_falls_back_minimal cfgUnknownPreset assetsW (by decide)

/-- Witness: zero reference covers, one screenshot, and a premium goal with
the gaming preset fire three rules: score 100 - 20 - 10 - 10 = 60. -/
theorem critique_score_additive_monotone_witness :
    (critiqueCoverConfig cfgW countsW).score = max 0 (100 - totalPenalty cfgW countsW)
    ∧ 0 ≤ (critiqueCoverConfig cfgW countsW).score
    ∧ (critiqueCoverConfig cfgW countsW).score ≤ 100
    ∧ (critiqueCoverConfig cfgW countsW).score = 60 :=
  ⟨critique_score_additive_monotone.1 cfgW countsW,
    (critique_score_additive_monotone.2.1 cfgW countsW).1,
    (critique_score_additive_monotone.2.1 cfgW countsW).2,
    by decide⟩

end CoverGen
